import Mathlib

/-!
Shallow embedding of `src/gitlab_runner_config.py` (gitlab-runner-auth).

Modelling conventions:
* Python string dictionaries (the parsed template JSON objects, the
  keyword-argument dictionary passed to `str.format`) are association lists
  `List (String × String)`; `dict.get(k, "")` is `dictGet`, `k in d` is
  `dictHas`, `del d[k]` is `pyDel` (raising `KeyError` when absent).
* Handled failures (`sys.exit(1)`) and unhandled Python exceptions
  (`TypeError` from subscripting/concatenating `None`, `KeyError`,
  `IndexError`) are constructors of `Err`; every function that can fail
  returns `Except Err _`.
* Network effects are explicit: the remote registry's observable behaviour is
  an `Env` snapshot (the tag set the `runners/all` listing yields for this
  host, the set of tokens `runners/verify` accepts, the JSON body a
  successful registration returns), and every client operation also returns
  the list of HTTP calls (`NetCall`) it issued, in order.  HTTP transport is
  assumed healthy (the `HTTPError`/non-201 branches, all of which
  `sys.exit(1)`, are not exercised by any claim).
* The filesystem state relevant to persistence is the content of
  `config.toml` (`FS`); `open(config_file, "w")` truncates it immediately,
  before the template is formatted, exactly as CPython does.
* `re.sub(r"\d", "", hostname)` is modelled on ASCII digits (`stripDigits`);
  `which(cmd)` (a probe of `os.environ["PATH"]`) is membership of `cmd` in
  the environment's set of resolvable executables.
* A `str.format` template is a list of literal chunks and `{field}`
  placeholders (`Tmpl`); formatting with an unknown field raises `KeyError`.
-/

/-- Python-level failure outcomes: `sys.exit(1)`, an uncaught `TypeError`
(e.g. `None[0]` or `None + [x]`), an uncaught `KeyError`, an uncaught
`IndexError`. -/
inductive Err where
  | exit1
  | typeError
  | keyError (k : String)
  | indexError
deriving Repr, DecidableEq

/-- One HTTP call issued to the runner registry. -/
inductive NetCall where
  | list_runners
  | verify (token : String)
  | register (description : String) (tag_list : List String)
  | delete (token : String)
deriving Repr, DecidableEq

/-- A Python string-valued dictionary (parsed template JSON data). -/
abbrev Dict := List (String × String)

/-- `d.get(k, dflt)`. -/
def dictGet (d : Dict) (k dflt : String) : String :=
  (d.lookup k).getD dflt

/-- `k in d`. -/
def dictHas (d : Dict) (k : String) : Bool :=
  (d.lookup k).isSome

/-- Remove every binding of `k`. -/
def dictDel (d : Dict) (k : String) : Dict :=
  d.filter (fun p => p.1 != k)

/-- Python `del d[k]`: raises `KeyError` when `k` is absent. -/
def pyDel (d : Dict) (k : String) : Except Err Dict :=
  if dictHas d k then .ok (dictDel d k) else .error (.keyError k)

/-- The environment a run observes: hostname, executables resolvable on
`PATH`, and the remote registry snapshot (tag set returned by the filtered
listing, tokens that `runners/verify` accepts, JSON body returned by a
successful registration). -/
structure Env where
  hostname : String
  path_cmds : List String
  remote_tags : List String
  valid_tokens : List String
  register_response : Dict
deriving Repr, DecidableEq

/-- `class gitlab_client` construction data. -/
structure gitlab_client where
  base_url : String
  admin_token : String
  access_token : String
deriving Repr, DecidableEq

/-- The per-URL client cache built by `create_client`. -/
abbrev Clients := List (String × gitlab_client)

/-- `re.sub(r"\d", "", hostname)`: removes every (ASCII) digit. -/
def stripDigits (s : String) : String :=
  String.mk (s.data.filter (fun c => !c.isDigit))

/-- The inner `which(cmd)` of `generate_tags`: whether `cmd` resolves to an
executable regular file on the search path. -/
def which (env : Env) (cmd : String) : Bool :=
  env.path_cmds.contains cmd

/-- `generate_tags(runner_type="")`: `[hostname, re.sub(r"\d", "", hostname)]`,
then, when `runner_type == "batch"`, the first-found scheduler tag probe
(`bsub` → `lsf`, `salloc` → `slurm`, `cqsub` → `cobalt`). -/
def generate_tags (env : Env) (runner_type : String) : List String :=
  let hostname := env.hostname
  let tags := [hostname, stripDigits hostname]
  if runner_type == "batch" then
    if which env "bsub" then tags ++ ["lsf"]
    else if which env "salloc" then tags ++ ["slurm"]
    else if which env "cqsub" then tags ++ ["cobalt"]
    else tags
  else tags

/-- `gitlab_client.register_runner(runner_type, tags)`.  Before any request
is sent the request body evaluates `tags[0]` and `tags + [runner_type]`:
on `tags = None` this raises `TypeError`, on an empty list `IndexError`.
A successful POST returns the server's JSON body. -/
def register_runner (env : Env) (runner_type : String)
    (tags : Option (List String)) : Except Err Dict × List NetCall :=
  match tags with
  | none => (.error .typeError, [])
  | some ts =>
    match ts with
    | [] => (.error .indexError, [])
    | t0 :: _ =>
      (.ok env.register_response,
       [.register (t0 ++ "-" ++ runner_type) (ts ++ [runner_type])])

/-- `gitlab_client.valid_runner_token(token)`: POST `runners/verify`. -/
def valid_runner_token (env : Env) (token : String) : Bool × List NetCall :=
  (env.valid_tokens.contains token, [.verify token])

/-- `gitlab_client.delete_runner(runner_token)`: DELETE `runners`. -/
def delete_runner (token : String) : Bool × List NetCall :=
  (true, [.delete token])

/-- `gitlab_client.update_runner_token(token, runner_type)`: when the token
is falsy or fails verification, delete it (when non-empty) and re-register
with `tags = None`; otherwise return `None`. -/
def update_runner_token (env : Env) (token : String) (runner_type : String) :
    Except Err (Option Dict) × List NetCall :=
  if token = "" then
    match register_runner env runner_type none with
    | (.error e, tr) => (.error e, tr)
    | (.ok c, tr) => (.ok (some c), tr)
  else
    match valid_runner_token env token with
    | (true, tr1) => (.ok none, tr1)
    | (false, tr1) =>
      match delete_runner token with
      | (_, tr2) =>
        match register_runner env runner_type none with
        | (.error e, tr3) => (.error e, tr1 ++ tr2 ++ tr3)
        | (.ok c, tr3) => (.ok (some c), tr1 ++ tr2 ++ tr3)

/-- `gitlab_client.list_gitlab_tags()`: the tag set of the remote runners
matching the hostname filter (one listing call; the per-runner detail calls
are folded into the same snapshot). -/
def list_gitlab_tags (env : Env) : List String × List NetCall :=
  (env.remote_tags, [.list_runners])

/-- `gitlab_client.update_runner(runner_type, token="")`: register with the
generated tags when `runner_type` is not among the remote tags, otherwise
refresh the token. -/
def update_runner (env : Env) (_client : gitlab_client)
    (runner_type token : String) : Except Err (Option Dict) × List NetCall :=
  match list_gitlab_tags env with
  | (gitlab_tags, tr1) =>
    if !(gitlab_tags.contains runner_type) then
      match register_runner env runner_type
          (some (generate_tags env runner_type)) with
      | (.error e, tr2) => (.error e, tr1 ++ tr2)
      | (.ok c, tr2) => (.ok (some c), tr1 ++ tr2)
    else
      match update_runner_token env token runner_type with
      | (r, tr2) => (r, tr1 ++ tr2)

/-- `create_client(data, clients)`: return the cached client for
`data.get("url", "")` with `data` untouched, or build one and delete the
`admin_token`/`access_token` keys from `data` (raising `KeyError` when a key
is absent). -/
def create_client (data : Dict) (clients : Clients) :
    Except Err (gitlab_client × Dict × Clients) :=
  let url := dictGet data "url" ""
  match clients.lookup url with
  | some c => .ok (c, data, clients)
  | none =>
    let admin_token := dictGet data "admin_token" ""
    let access_token := dictGet data "access_token" ""
    match pyDel data "admin_token" with
    | .error e => .error e
    | .ok d1 =>
      match pyDel d1 "access_token" with
      | .error e => .error e
      | .ok d2 =>
        let c : gitlab_client := ⟨url, admin_token, access_token⟩
        .ok (c, d2, (url, c) :: clients)

/-- The loop body of `read_runner` over the parsed file's
`runner_config.items()`: a `None` value becomes `{}`, a duplicate
`data.get("name", "")` exits, otherwise the entry's client is created and
`update_runner` is invoked with the entry's `executor` and `token` fields. -/
def read_runner_entries (env : Env) :
    List (String × Option Dict) → List (String × Option Dict) → Clients →
    Except Err (List (String × Option Dict) × Clients) × List NetCall
  | [], runners, clients => (.ok (runners, clients), [])
  | (_rt_key, data0) :: rest, runners, clients =>
    let data := data0.getD []
    let name := dictGet data "name" ""
    if (runners.lookup name).isSome then (.error .exit1, [])
    else
      match create_client data clients with
      | .error e => (.error e, [])
      | .ok (client, data2, clients2) =>
        let runner_type := dictGet data2 "executor" ""
        let token := dictGet data2 "token" ""
        match update_runner env client runner_type token with
        | (.error e, tr) => (.error e, tr)
        | (.ok cfg, tr) =>
          match read_runner_entries env rest (runners ++ [(name, cfg)])
              clients2 with
          | (r, tr2) => (r, tr ++ tr2)

/-- `read_runner(templates, path, clients)` on the parsed content of one
template file. -/
def read_runner (env : Env) (runner_config : List (String × Option Dict))
    (clients : Clients) :
    Except Err (List (String × Option Dict) × Clients) × List NetCall :=
  read_runner_entries env runner_config [] clients

/-- A `str.format` template: literal chunks and `{field}` placeholders. -/
inductive Tmpl where
  | lit (s : String)
  | field (k : String)
deriving Repr, DecidableEq

/-- `template.format(**kwargs)`: substitute each placeholder, raising
`KeyError` on an unknown field name. -/
def pyFormat (kwargs : List (String × String)) : List Tmpl → Except Err String
  | [] => .ok ""
  | .lit s :: rest =>
    match pyFormat kwargs rest with
    | .error e => .error e
    | .ok r => .ok (s ++ r)
  | .field k :: rest =>
    match kwargs.lookup k with
    | none => .error (.keyError k)
    | some v =>
      match pyFormat kwargs rest with
      | .error e => .error e
      | .ok r => .ok (v ++ r)

/-- The dict comprehension `{runner: data["token"] for runner, data in
internal_config.items()}`: `data["token"]` on a `None` entry raises
`TypeError`, on a dict without the key `KeyError`. -/
def tokenPairs : List (String × Option Dict) →
    Except Err (List (String × String))
  | [] => .ok []
  | (runner, data) :: rest =>
    match data with
    | none => .error .typeError
    | some d =>
      match d.lookup "token" with
      | none => .error (.keyError "token")
      | some t =>
        match tokenPairs rest with
        | .error e => .error e
        | .ok ps => .ok ((runner, t) :: ps)

/-- `template_kwargs`: `{"hostname": hostname}` updated with the token
pairs (the update wins on a key collision, hence the pairs precede the
hostname binding for first-match lookup). -/
def mkKwargs (hostname : String) (internal_config : List (String × Option Dict)) :
    Except Err (List (String × String)) :=
  match tokenPairs internal_config with
  | .error e => .error e
  | .ok ps => .ok (ps ++ [("hostname", hostname)])

/-- The persisted state: the content of `config.toml` (`none` = absent). -/
structure FS where
  config_toml : Option String
deriving Repr, DecidableEq

/-- `update_runner_config(config_template, config_file, internal_config)`:
`template_kwargs` is built first (its failures leave the file untouched);
then `open(config_file, "w")` truncates the file, the template is formatted
(a failure here leaves the truncated, empty file behind), and the result is
written. -/
def update_runner_config (hostname : String) (config_template : List Tmpl)
    (internal_config : List (String × Option Dict)) (fs : FS) :
    Except Err String × FS :=
  match mkKwargs hostname internal_config with
  | .error e => (.error e, fs)
  | .ok kwargs =>
    match pyFormat kwargs config_template with
    | .error e => (.error e, ⟨some ""⟩)
    | .ok s => (.ok s, ⟨some s⟩)

/-- `stat.S_IRWXU`. -/
def S_IRWXU : Nat := 0o700

/-- `stat.S_IRWXG`. -/
def S_IRWXG : Nat := 0o070

/-- `owner_only_permissions(path)`:
`not (bool(mode & S_IRWXG) and bool(mode & S_IRWXU))`. -/
def owner_only_permissions (mode : Nat) : Bool :=
  !((mode.land S_IRWXG != 0) && (mode.land S_IRWXU != 0))

/-- `runners.update(read_runner(...))`: later bindings replace earlier ones
with the same key. -/
def pyDictUpdate (m upd : List (String × Option Dict)) :
    List (String × Option Dict) :=
  m.filter (fun p => (upd.lookup p.1).isNone) ++ upd

/-- The loop of `configure_runners` over the instance directory's `.toml`
files (given already parsed). -/
def read_all (env : Env) :
    List (List (String × Option Dict)) → List (String × Option Dict) →
    Clients →
    Except Err (List (String × Option Dict) × Clients) × List NetCall
  | [], runners, clients => (.ok (runners, clients), [])
  | f :: rest, runners, clients =>
    match read_runner env f clients with
    | (.error e, tr) => (.error e, tr)
    | (.ok (rs, clients2), tr) =>
      match read_all env rest (pyDictUpdate runners rs) clients2 with
      | (r, tr2) => (r, tr ++ tr2)

/-- `configure_runners(prefix, instance)`: permission gate on the two
directory modes, then the per-file loop, then `update_runner_config`.
Returns the outcome, the HTTP calls issued, and the final filesystem
state. -/
def configure_runners (env : Env) (prefixMode instanceMode : Nat)
    (instance_files : List (List (String × Option Dict)))
    (config_template : List Tmpl) (fs : FS) :
    Except Err String × List NetCall × FS :=
  if !(owner_only_permissions prefixMode && owner_only_permissions instanceMode) then
    (.error .exit1, [], fs)
  else
    match read_all env instance_files [] [] with
    | (.error e, tr) => (.error e, tr, fs)
    | (.ok (runners, _clients), tr) =>
      match update_runner_config env.hostname config_template runners fs with
      | (r, fs2) => (r, tr, fs2)

/-! ### Specification-side definitions and concrete fixtures -/

/-- The spec's batch-scheduler probe, stated from its words: check `bsub`,
`salloc`, `cqsub` in that order, first found wins, mapping to `lsf`,
`slurm`, `cobalt`; empty when none is found. -/
def schedTag (env : Env) : List String :=
  if which env "bsub" then ["lsf"]
  else if which env "salloc" then ["slurm"]
  else if which env "cqsub" then ["cobalt"]
  else []

/-- A well-formed template entry: all credential keys present, `shell`
executor, empty token. -/
def dShell : Dict :=
  [("name", "x"), ("url", "u"), ("admin_token", "a"), ("access_token", "b"),
   ("executor", "shell"), ("token", "")]

/-- `dShell` with a stored token `tkn`. -/
def dShellTok : Dict :=
  [("name", "x"), ("url", "u"), ("admin_token", "a"), ("access_token", "b"),
   ("executor", "shell"), ("token", "tkn")]

/-- Hostname with interior and trailing digits; empty registry. -/
def envC4x : Env := ⟨"a1b2", [], [], [], []⟩

/-- Environment with an empty remote registry (first-run shape). -/
def envFresh : Env := ⟨"node1", [], [], [], [("token", "TOK")]⟩

/-- Remote registry state left behind by a first run that registered the
`shell` executor on `node1` (its tag list `[node1, node, shell]`). -/
def envAfterRun1 : Env :=
  ⟨"node1", [], ["node1", "node", "shell"], [], [("token", "TOK")]⟩

/-- `envAfterRun1` where the stored token `tkn` verifies. -/
def envAfterRun1Valid : Env :=
  ⟨"node1", [], ["node1", "node", "shell"], ["tkn"], [("token", "TOK")]⟩

/-- Registry snapshot for the token-refresh claims: `shell` already among
the remote tags, no token verifies. -/
def envC8x : Env := ⟨"h", [], ["shell"], [], []⟩

/-- Registry snapshot where the token `tkn` verifies and `shell` is among
the remote tags. -/
def envC9x : Env := ⟨"h", [], ["shell"], ["tkn"], []⟩

/-- Host `host` (no digits), empty registry, fixed registration response. -/
def envC7x : Env := ⟨"host", [], [], [], [("token", "TOK")]⟩

/-- Registry snapshot for the duplicate-name claim. -/
def envC6x : Env := ⟨"h1", [], [], [], [("token", "TOK")]⟩

/-- A throwaway client value for invoking `update_runner`. -/
def cli0 : gitlab_client := ⟨"u", "a", "b"⟩

/-! ### Helper lemmas -/

/-- `List.lookup` is unchanged by deleting a different key. -/
theorem lookup_dictDel (k kd : String) (h : k ≠ kd) :
    ∀ d : Dict, (dictDel d kd).lookup k = d.lookup k := by
  intro d
  induction d with
  | nil => rfl
  | cons p t ih =>
    obtain ⟨a, b⟩ := p
    by_cases ha : a = kd
    · subst ha
      have hk : (k == a) = false := by simp [h]
      simp [dictDel, List.filter_cons, List.lookup, hk] at ih ⊢
      exact ih
    · have ha2 : (a != kd) = true := by simp [ha]
      simp only [dictDel, List.filter_cons, ha2, if_true]
      simp only [List.lookup]
      cases hk : (k == a) with
      | true => rfl
      | false => simpa [dictDel] using ih

/-- `dictGet` is unchanged by deleting a different key. -/
theorem dictGet_dictDel (d : Dict) (k kd dflt : String) (h : k ≠ kd) :
    dictGet (dictDel d kd) k dflt = dictGet d k dflt := by
  unfold dictGet
  rw [lookup_dictDel k kd h d]

/-- `dictHas` is unchanged by deleting a different key. -/
theorem dictHas_dictDel (d : Dict) (k kd : String) (h : k ≠ kd) :
    dictHas (dictDel d kd) k = dictHas d k := by
  unfold dictHas
  rw [lookup_dictDel k kd h d]

/-- `generate_tags` is the two identity tags followed by the scheduler probe
result (the latter only for the `batch` executor). -/
theorem generate_tags_eq (env : Env) (rt : String) :
    generate_tags env rt
      = [env.hostname, stripDigits env.hostname]
        ++ (if rt == "batch" then schedTag env else []) := by
  simp only [generate_tags, schedTag]
  cases h : (rt == "batch") <;>
    cases hb : which env "bsub" <;>
    cases hs : which env "salloc" <;>
    cases hc : which env "cqsub" <;>
    simp [h, hb, hs, hc]

/-- The scheduler probe yields at most one tag. -/
theorem schedTag_length (env : Env) : (schedTag env).length ≤ 1 := by
  simp only [schedTag]
  cases hb : which env "bsub" <;>
    cases hs : which env "salloc" <;>
    cases hc : which env "cqsub" <;>
    simp [hb, hs, hc]

/-- The token dict comprehension fails on any `None` entry. -/
theorem tokenPairs_err_of_none (nm : String) :
    ∀ ic : List (String × Option Dict), (nm, (none : Option Dict)) ∈ ic →
      ∃ e, tokenPairs ic = .error e := by
  intro ic
  induction ic with
  | nil => intro h; cases h
  | cons p t ih =>
    intro hmem
    obtain ⟨r, d⟩ := p
    cases d with
    | none => exact ⟨.typeError, rfl⟩
    | some dd =>
      have ht : (nm, (none : Option Dict)) ∈ t := by
        rcases List.mem_cons.mp hmem with h1 | h2
        · simp [Prod.ext_iff] at h1
        · exact h2
      obtain ⟨e, he⟩ := ih ht
      cases hl : dd.lookup "token" with
      | none => exact ⟨.keyError "token", by simp [tokenPairs, hl]⟩
      | some tv => exact ⟨e, by simp [tokenPairs, hl, he]⟩

/-! ### Claims -/

/-- Claim C1 (code bug): the spec requires the second of two identical runs
to be a no-op (zero creates/deletes, tokens unchanged), but evaluating the
code on the state a first run leaves behind (the executor's type now among
the remote tags) crashes: with the template's empty token the refresh path
calls `register_runner(runner_type, None)` and dies on `None[0]`
(`TypeError`), and with a stored valid token the run stores `None` as the
runner's config and dies in `update_runner_config` on `None["token"]`. -/
theorem C1_second_run_not_idempotent :
    (configure_runners envAfterRun1 0o700 0o700 [[("r", some dShell)]]
        [Tmpl.field "hostname"] ⟨some "OLD"⟩).1 = .error .typeError ∧
    (configure_runners envAfterRun1Valid 0o700 0o700 [[("r", some dShellTok)]]
        [Tmpl.field "hostname"] ⟨some "OLD"⟩).1 = .error .typeError :=
  ⟨rfl, rfl⟩

/-- Claim C2 (counterexample): a run that fails while formatting the
template (unknown placeholder `nope`) does not leave the previously
persisted `config.toml` (`"OLD"`) unchanged: the file was already truncated
by `open(config_file, "w")` and ends up empty. -/
theorem C2_counterexample :
    (configure_runners envFresh 0o700 0o700 [[("r", some dShell)]]
        [Tmpl.field "nope"] ⟨some "OLD"⟩).1 = .error (.keyError "nope") ∧
    (configure_runners envFresh 0o700 0o700 [[("r", some dShell)]]
        [Tmpl.field "nope"] ⟨some "OLD"⟩).2.2 = ⟨some ""⟩ :=
  ⟨rfl, rfl⟩

/-- Claim C2 (amended): `config.toml` is touched only inside
`update_runner_config`; a failure while building the token kwargs leaves it
unchanged, but a failure while formatting the template happens after the
output file has been opened for writing and leaves it truncated to empty;
only a fully successful run writes the formatted configuration. -/
theorem C2_amended_persistence (hn : String) (tmpl : List Tmpl)
    (ic : List (String × Option Dict)) (fs : FS) :
    (∀ e, mkKwargs hn ic = .error e →
        update_runner_config hn tmpl ic fs = (.error e, fs)) ∧
    (∀ kw e, mkKwargs hn ic = .ok kw → pyFormat kw tmpl = .error e →
        update_runner_config hn tmpl ic fs = (.error e, ⟨some ""⟩)) ∧
    (∀ kw s, mkKwargs hn ic = .ok kw → pyFormat kw tmpl = .ok s →
        update_runner_config hn tmpl ic fs = (.ok s, ⟨some s⟩)) := by
  refine ⟨?_, ?_, ?_⟩
  · intro e he
    unfold update_runner_config
    simp [he]
  · intro kw e hkw hf
    unfold update_runner_config
    simp [hkw, hf]
  · intro kw s hkw hf
    unfold update_runner_config
    simp [hkw, hf]

/-- Witness for `C2_amended_persistence` at a concrete template, entry set
and filesystem. -/
theorem C2_amended_witness :
    update_runner_config "h" [Tmpl.field "nope"]
        [("r", some [("token", "T")])] ⟨some "OLD"⟩
      = (.error (.keyError "nope"), ⟨some ""⟩) :=
  (C2_amended_persistence "h" [Tmpl.field "nope"]
      [("r", some [("token", "T")])] ⟨some "OLD"⟩).2.1
    [("r", "T"), ("hostname", "h")] (.keyError "nope") rfl rfl

/-- Claim C3 (code bug): `owner_only_permissions` computes
`not (group-bits and user-bits)`, so a directory readable/executable by
others (mode `0o705`) or accessible only to the group (mode `0o070`)
passes the gate, and the run proceeds to issue network calls; the claim's
"any group or other bits set aborts before any network call" is violated
(owner-only `0o700` does pass, as claimed). -/
theorem C3_permission_gate_bug :
    owner_only_permissions 0o705 = true ∧
    owner_only_permissions 0o070 = true ∧
    owner_only_permissions 0o700 = true ∧
    (configure_runners envFresh 0o705 0o700 [[("r", some dShell)]]
        [Tmpl.field "hostname"] ⟨some "OLD"⟩).2.1 ≠ [] := by
  decide

/-- Claim C4 (counterexample): for hostname `a1b2` the generated list is
`["a1b2", "ab"]`: the second tag removes the interior digit too (not
`"a1b"`), and no `"managed"` or instance tag is generated. -/
theorem C4_counterexample :
    generate_tags envC4x "shell" = ["a1b2", "ab"] ∧
    "a1b" ∉ generate_tags envC4x "shell" ∧
    "managed" ∉ generate_tags envC4x "shell" := by
  decide

/-- Claim C4 (amended): for every hostname and runner type, the generated
tag list begins with exactly `[hostname, hostname with every digit
removed]`; there is no `"managed"` or instance tag, and interior digits are
removed along with trailing ones. -/
theorem C4_amended_tag_prefix (env : Env) (rt : String) :
    (generate_tags env rt).take 2
      = [env.hostname, stripDigits env.hostname] := by
  rw [generate_tags_eq]
  rfl

/-- Claim C5 (confirmed): the tags after the two identity tags are produced
only for runner type `batch`, by probing `bsub`, `salloc`, `cqsub` in that
order on the search path and appending the first match's scheduler tag
(`lsf`, `slurm`, `cobalt`); at most one scheduler tag is ever appended. -/
theorem C5_batch_scheduler_probe (env : Env) (rt : String) :
    generate_tags env rt
      = [env.hostname, stripDigits env.hostname]
        ++ (if rt == "batch" then schedTag env else []) ∧
    (schedTag env).length ≤ 1 :=
  ⟨generate_tags_eq env rt, schedTag_length env⟩

/-- Claim C6 (counterexample): two entries with the same `name` do make the
run exit non-zero, but only when the second entry is read: by then the
first entry's `update_runner` has already issued registry calls, so the
failure does not happen "before any registry client call". -/
theorem C6_counterexample :
    (read_runner envC6x [("r1", some dShell), ("r2", some dShell)] []).1
      = .error .exit1 ∧
    (read_runner envC6x [("r1", some dShell), ("r2", some dShell)] []).2
      ≠ [] :=
  ⟨rfl, by decide⟩

/-- Claim C6 (amended): two declarations with the same `name` in one file
cause the run to exit non-zero when the second is reached, but registry
calls for the first declaration (at least the listing call) have already
been made by then. -/
theorem C6_amended_duplicate_after_network (env : Env) (k1 k2 : String)
    (d : Dict)
    (hadm : dictHas d "admin_token" = true)
    (hacc : dictHas d "access_token" = true)
    (hrt : env.remote_tags.contains (dictGet d "executor" "") = false) :
    (read_runner env [(k1, some d), (k2, some d)] []).1 = .error .exit1 ∧
    (read_runner env [(k1, some d), (k2, some d)] []).2 ≠ [] := by
  have hacc2 : dictHas (dictDel d "admin_token") "access_token" = true := by
    rw [dictHas_dictDel d "access_token" "admin_token" (by decide)]
    exact hacc
  have hcc : create_client d []
      = .ok (⟨dictGet d "url" "", dictGet d "admin_token" "",
              dictGet d "access_token" ""⟩,
             dictDel (dictDel d "admin_token") "access_token",
             [(dictGet d "url" "",
               ⟨dictGet d "url" "", dictGet d "admin_token" "",
                dictGet d "access_token" ""⟩)]) := by
    unfold create_client pyDel
    simp [hadm, hacc2]
  have hex : dictGet (dictDel (dictDel d "admin_token") "access_token")
      "executor" "" = dictGet d "executor" "" := by
    rw [dictGet_dictDel _ "executor" "access_token" "" (by decide),
        dictGet_dictDel _ "executor" "admin_token" "" (by decide)]
  have hup : (update_runner env
      ⟨dictGet d "url" "", dictGet d "admin_token" "",
       dictGet d "access_token" ""⟩
      (dictGet (dictDel (dictDel d "admin_token") "access_token")
        "executor" "")
      (dictGet (dictDel (dictDel d "admin_token") "access_token")
        "token" ""))
      = (.ok (some env.register_response),
         [.list_runners,
          .register (env.hostname ++ "-" ++ dictGet d "executor" "")
            (generate_tags env (dictGet d "executor" "")
              ++ [dictGet d "executor" ""])]) := by
    rw [hex]
    unfold update_runner list_gitlab_tags
    simp only [hrt, Bool.not_false, if_true]
    rw [generate_tags_eq]
    simp [register_runner, generate_tags_eq]
  unfold read_runner read_runner_entries
  simp only [Option.getD, List.lookup, Option.isSome, if_false, hcc]
  rw [hup]
  simp [read_runner_entries, List.lookup]

/-- Witness for `C6_amended_duplicate_after_network` at a concrete
duplicate pair. -/
theorem C6_amended_witness :
    (read_runner envC6x [("r1", some dShell), ("r2", some dShell)] []).1
      = .error .exit1 ∧
    (read_runner envC6x [("r1", some dShell), ("r2", some dShell)] []).2
      ≠ [] :=
  C6_amended_duplicate_after_network envC6x "r1" "r2" dShell
    (by decide) (by decide) (by decide)

/-- Claim C7 (counterexample): there is no tag schema and no validation:
the unrecognized executor type `pigeon` is silently accepted — tag
generation returns normally and the full `update_runner` run succeeds,
instead of failing with a `ConfigError`. -/
theorem C7_counterexample :
    generate_tags envC7x "pigeon" = ["host", "host"] ∧
    (update_runner envC7x cli0 "pigeon" "").1
      = .ok (some [("token", "TOK")]) :=
  ⟨rfl, rfl⟩

/-- Claim C7 (amended): the program has no tag schema; `generate_tags`
accepts every executor type without any error path (only `"batch"` has
special behaviour), and `update_runner` successfully registers an arbitrary
executor type whenever it is not among the remote tags. -/
theorem C7_no_schema_validation (env : Env) (c : gitlab_client)
    (rt tok : String) (h : env.remote_tags.contains rt = false) :
    (update_runner env c rt tok).1 = .ok (some env.register_response) := by
  unfold update_runner list_gitlab_tags
  simp only [h, Bool.not_false, if_true]
  rw [generate_tags_eq]
  simp [register_runner]

/-- Witness for `C7_no_schema_validation` at a concrete unrecognized
executor type. -/
theorem C7_witness :
    (update_runner envC7x cli0 "made-up-executor" "").1
      = .ok (some envC7x.register_response) :=
  C7_no_schema_validation envC7x cli0 "made-up-executor" "" (by decide)

/-- Claim C8 (confirmed): when the runner type is already among the remote
tags and the token is empty or fails verification, `update_runner_token`
calls `register_runner` with `tags = None`, whose evaluation of `tags[0]`
(and `tags + [runner_type]`) is undefined on `None`: the total embedding's
error branch (`TypeError`) is reached. -/
theorem C8_token_refresh_crash (env : Env) (c : gitlab_client)
    (rt tok : String)
    (hmem : env.remote_tags.contains rt = true)
    (hbad : tok = "" ∨ env.valid_tokens.contains tok = false) :
    register_runner env rt none = (.error .typeError, []) ∧
    (update_runner env c rt tok).1 = .error .typeError := by
  refine ⟨rfl, ?_⟩
  unfold update_runner list_gitlab_tags
  simp only [hmem, Bool.not_true, if_false]
  by_cases ht : tok = ""
  · subst ht
    simp [update_runner_token, register_runner]
  · rcases hbad with h | h
    · exact absurd h ht
    · have hv : valid_runner_token env tok = (false, [NetCall.verify tok]) := by
        unfold valid_runner_token
        rw [h]
      simp [update_runner_token, hv, delete_runner, register_runner, ht]

/-- Witness for `C8_token_refresh_crash`: remote tags `["shell"]`, empty
token. -/
theorem C8_witness :
    register_runner envC8x "shell" none = (.error .typeError, []) ∧
    (update_runner envC8x cli0 "shell" "").1 = .error .typeError :=
  C8_token_refresh_crash envC8x cli0 "shell" "" (by decide) (Or.inl rfl)

/-- Claim C9 (confirmed): a non-empty token that passes verification makes
`update_runner_token` (and hence `update_runner`) return `None`; an
internal-config entry holding `None` makes `update_runner_config`'s
`data["token"]` lookup fail, so no successful execution path carries an
already-valid token into the written configuration (and the file is left
untouched, since the failure precedes the open-for-write). -/
theorem C9_valid_token_never_persisted (env : Env) (c : gitlab_client)
    (rt tok hn nm : String) (ic : List (String × Option Dict))
    (tmpl : List Tmpl) (fs : FS)
    (htok : tok ≠ "") (hvalid : env.valid_tokens.contains tok = true)
    (hmem : env.remote_tags.contains rt = true)
    (hic : (nm, (none : Option Dict)) ∈ ic) :
    (update_runner_token env tok rt).1 = .ok none ∧
    (update_runner env c rt tok).1 = .ok none ∧
    (update_runner_config hn tmpl ic fs).1.isOk = false ∧
    (update_runner_config hn tmpl ic fs).2 = fs := by
  have hv : valid_runner_token env tok = (true, [NetCall.verify tok]) := by
    unfold valid_runner_token
    rw [hvalid]
  have h1 : update_runner_token env tok rt = (.ok none, [.verify tok]) := by
    unfold update_runner_token
    rw [if_neg htok, hv]
  obtain ⟨e, he⟩ := tokenPairs_err_of_none nm ic hic
  have h2 : update_runner_config hn tmpl ic fs = (.error e, fs) := by
    unfold update_runner_config mkKwargs
    simp [he]
  refine ⟨by rw [h1], ?_, by rw [h2]; rfl, by rw [h2]⟩
  have hm : rt ∈ env.remote_tags := by simpa using hmem
  unfold update_runner list_gitlab_tags
  simp [hm, h1]

/-- Witness for `C9_valid_token_never_persisted`: valid token `tkn`, an
internal config whose single entry is `None`. -/
theorem C9_witness :
    (update_runner_token envC9x "tkn" "shell").1 = .ok none ∧
    (update_runner envC9x cli0 "shell" "tkn").1 = .ok none ∧
    (update_runner_config "h" [] [("x", none)] ⟨some "OLD"⟩).1.isOk
      = false ∧
    (update_runner_config "h" [] [("x", none)] ⟨some "OLD"⟩).2
      = ⟨some "OLD"⟩ :=
  C9_valid_token_never_persisted envC9x cli0 "shell" "tkn" "h" "x"
    [("x", none)] [] ⟨some "OLD"⟩ (by decide) (by decide) (by decide)
    (by simp)

/-- Claim C10 (confirmed): for an entry whose URL is already in the client
cache, `create_client` returns the cached client with the data unchanged;
for an uncached URL it unconditionally deletes `admin_token` and
`access_token` from the data, so an entry missing either key reaches the
`KeyError` branch even though the values themselves were read with
empty-string defaults. -/
theorem C10_create_client_contract (data : Dict) (clients : Clients) :
    (∀ c, clients.lookup (dictGet data "url" "") = some c →
        create_client data clients = .ok (c, data, clients)) ∧
    (clients.lookup (dictGet data "url" "") = none →
      dictHas data "admin_token" = false →
        create_client data clients = .error (.keyError "admin_token")) ∧
    (clients.lookup (dictGet data "url" "") = none →
      dictHas data "admin_token" = true →
      dictHas data "access_token" = false →
        create_client data clients = .error (.keyError "access_token")) := by
  refine ⟨?_, ?_, ?_⟩
  · intro c hc
    unfold create_client
    simp [hc]
  · intro h0 h1
    unfold create_client pyDel
    simp [h0, h1]
  · intro h0 h1 h2
    have h3 : dictHas (dictDel data "admin_token") "access_token" = false := by
      rw [dictHas_dictDel data "access_token" "admin_token" (by decide)]
      exact h2
    unfold create_client pyDel
    simp [h0, h1, h3]

/-- Witness for `C10_create_client_contract`: a cached URL keeps the data
unchanged; a fresh URL with a missing credential key raises `KeyError`. -/
theorem C10_witness :
    create_client [("url", "u")] [("u", cli0)]
      = .ok (cli0, [("url", "u")], [("u", cli0)]) ∧
    create_client [("url", "u")] [] = .error (.keyError "admin_token") ∧
    create_client [("url", "u"), ("admin_token", "a")] []
      = .error (.keyError "access_token") :=
  ⟨(C10_create_client_contract [("url", "u")] [("u", cli0)]).1 cli0
      (by decide),
   (C10_create_client_contract [("url", "u")] []).2.1 (by decide) (by decide),
   (C10_create_client_contract [("url", "u"), ("admin_token", "a")] []).2.2
      (by decide) (by decide) (by decide)⟩
